import Mathlib

/-!
Shallow embedding of src/examples/stocks.py: the resilient
refresh-and-wake controller (quote retry loop, stale-value cache,
ratio block, wake-time computation and shutdown decision).

Python strings holding quote values are modelled by StockStr,
Python floats by rationals, exceptions by Except PyErr, and the
durable cache file by FileState. Wall-clock instants are modelled
by DateTime (calendar day index plus hour, minute, second).
-/

namespace Stocks

/-- MORNING_HOUR constant from the source. -/
def MORNING_HOUR : ℕ := 7

/-- EVENING_HOUR constant from the source. -/
def EVENING_HOUR : ℕ := 19

/-- MAX_RETRIES constant from the source. -/
def MAX_RETRIES : ℕ := 5

/-- Configured equity tickers, in source order. -/
def tickers : List String := ["VTI", "GLD", "PSTG", "ORCL"]

/-- Bitcoin symbol from the source. -/
def btc_symbol : String := "BTC-USD"

/-- Value strings held in the quotes dict and the cache: the literal
string N/A, a numeric string carrying a rational value, or a string
that is neither N/A nor parseable as a float (possible when the cache
file was written externally). -/
inductive StockStr where
  | na
  | num (q : ℚ)
  | bad
deriving DecidableEq

/-- Python exceptions relevant to the embedded code paths. -/
inductive PyErr where
  | valueError
  | zeroDivision
  | jsonDecode
deriving DecidableEq

/-- State of the durable cache file on disk. -/
inductive FileState where
  | absent
  | malformed
  | valid (m : List (String × StockStr))
deriving DecidableEq

/-- Dictionary get with default, as in last_values.get(t, default N/A). -/
def lookupD (cache : List (String × StockStr)) (t : String) : StockStr :=
  match cache.lookup t with
  | some v => v
  | none => StockStr.na

/-- Module-level cache load (source lines 46-50): if the file exists,
json.load is called with no exception handling around it, so a
malformed file raises JSONDecodeError to the top level; if the file
does not exist, last_values is the empty dict. -/
def loadCache : FileState → Except PyErr (List (String × StockStr))
  | FileState.absent => Except.ok []
  | FileState.malformed => Except.error PyErr.jsonDecode
  | FileState.valid m => Except.ok m

/-- Round-half-to-even to an integer, the rounding used by the Python
round builtin and by format specifiers such as .2f and .0f. -/
def roundHalfEven (q : ℚ) : ℤ :=
  let f : ℤ := ⌊q⌋
  let r : ℚ := q - (f : ℚ)
  if r < 1 / 2 then f
  else if (1 : ℚ) / 2 < r then f + 1
  else if f % 2 = 0 then f else f + 1

/-- Python round(x, 2). -/
def pyRound2 (q : ℚ) : ℚ := (roundHalfEven (q * 100) : ℚ) / 100

/-- Python round(x, 0), the value rendered by an .0f format. -/
def pyRound0 (q : ℚ) : ℚ := (roundHalfEven q : ℚ)

/-- Numeric string produced by the .2f format of a live close price. -/
def fmt2 (q : ℚ) : StockStr := StockStr.num (pyRound2 q)

/-- Numeric string produced by the .0f format of a live BTC price. -/
def fmt0 (q : ℚ) : StockStr := StockStr.num (pyRound0 q)

/-- Outcome of a single history() call for one attempt: nonempty data
carrying the latest close price, empty data (no exception), or a
raised exception. -/
inductive FetchResult where
  | ok (q : ℚ)
  | emptyData
  | err
deriving DecidableEq

/-- Observable events of the retry loop: an invocation of the fetch
operation, or a time.sleep of the given number of seconds. -/
inductive Ev where
  | attempt (i : ℕ)
  | sleep (n : ℕ)
deriving DecidableEq

/-- Predicate selecting attempt events. -/
def isAttemptEv : Ev → Bool
  | Ev.attempt _ => true
  | Ev.sleep _ => false

/-- Sleep durations of a trace, in order. -/
def sleepSecs (evs : List Ev) : List ℕ :=
  evs.filterMap fun e =>
    match e with
    | Ev.sleep n => some n
    | Ev.attempt _ => none

/-- Retry loop of the source (lines 87-97 and 105-115): for attempt in
range(MAX_RETRIES), try the fetch; on nonempty data record the value
and break; otherwise fall through to time.sleep(2 ** attempt) and
continue. Parametrised by the current attempt index i and the number
of remaining iterations; returns the live value, if any, and the
event trace. -/
def retryFrom (fetch : ℕ → FetchResult) (i : ℕ) : ℕ → Option ℚ × List Ev
  | 0 => (none, [])
  | Nat.succ n =>
    match fetch i with
    | FetchResult.ok q => (some q, [Ev.attempt i])
    | _ =>
      let rest := retryFrom fetch (i + 1) n
      (rest.1, Ev.attempt i :: Ev.sleep (2 ^ i) :: rest.2)

/-- Full retry loop for one symbol, starting at attempt 0. -/
def tickerRetry (fetch : ℕ → FetchResult) : Option ℚ × List Ev :=
  retryFrom fetch 0 MAX_RETRIES

/-- Expected trace of a run in which every attempt fails, starting at
attempt index i: each attempt is followed by its backoff sleep,
including the final one. -/
def allFailTrace (i : ℕ) : ℕ → List Ev
  | 0 => []
  | Nat.succ n => Ev.attempt i :: Ev.sleep (2 ^ i) :: allFailTrace (i + 1) n

/-- Value of quotes[t] after the per-ticker loop (lines 85-101): the
live close price formatted to two decimals when some attempt
succeeded, otherwise last_values.get(t, N/A). -/
def quotesOf (cache : List (String × StockStr)) (live : String → Option ℚ)
    (t : String) : StockStr :=
  match live t with
  | some q => fmt2 q
  | none => lookupD cache t

/-- Value of btc_price after the BTC loop (lines 104-119): the live
price formatted with .0f when some attempt succeeded, otherwise
last_values.get(btc_symbol, N/A). -/
def btcQuoteOf (cache : List (String × StockStr)) (btcLive : Option ℚ) : StockStr :=
  match btcLive with
  | some q => fmt0 q
  | none => lookupD cache btc_symbol

/-- Final value of the used_fallback flag (lines 83, 98-101, 116-119):
set when a ticker loop fails and the cached value is present (not
N/A), or when the BTC loop fails and its cached value is present.
The source sets the flag inside sequential if statements; the result
equals this disjunction over all symbols. -/
def usedFallbackOf (cache : List (String × StockStr)) (live : String → Option ℚ)
    (btcLive : Option ℚ) : Bool :=
  (tickers.any fun t => (live t).isNone && decide (lookupD cache t ≠ StockStr.na)) ||
    (btcLive.isNone && decide (lookupD cache btc_symbol ≠ StockStr.na))

/-- Mapping written by the cache-save block (lines 123-128): every
ticker whose quote is not N/A, then the BTC symbol if its price is
not N/A, in that order. -/
def cache_to_save (quotes : String → StockStr) (btc_price : StockStr) :
    List (String × StockStr) :=
  (tickers.filterMap fun t =>
      if quotes t ≠ StockStr.na then some (t, quotes t) else none) ++
    (if btc_price ≠ StockStr.na then [(btc_symbol, btc_price)] else [])

/-- Effect of the save block (lines 129-131) on the durable file: the
file is overwritten with cache_to_save only when that mapping is
nonempty; otherwise no write occurs and the old state remains. -/
def saveBlock (old : FileState) (quotes : String → StockStr)
    (btc_price : StockStr) : FileState :=
  let cts := cache_to_save quotes btc_price
  if cts.isEmpty then old else FileState.valid cts

/-- Python float(s) applied to a quote string: returns the numeric
value, or raises ValueError when the string is not parseable as a
float (the N/A string included). -/
def pyFloat : StockStr → Except PyErr ℚ
  | StockStr.num q => Except.ok q
  | _ => Except.error PyErr.valueError

/-- One conditional expression of the ratio block (lines 137-139):
round(float(a) / float(b), 2) if a is not N/A and b is not N/A, else
N/A (modelled as none). float may raise ValueError; a division whose
denominator is zero raises ZeroDivisionError. -/
def ratioOf (a b : StockStr) : Except PyErr (Option ℚ) :=
  if a ≠ StockStr.na ∧ b ≠ StockStr.na then
    match pyFloat a with
    | Except.error e => Except.error e
    | Except.ok x =>
      match pyFloat b with
      | Except.error e => Except.error e
      | Except.ok y =>
        if y = 0 then Except.error PyErr.zeroDivision
        else Except.ok (some (pyRound2 (x / y)))
  else Except.ok none

/-- Ratio block (lines 136-141): the three ratios are computed in
order inside a try that catches only ValueError, in which case all
three are set to N/A; any other exception propagates. -/
def ratiosBlock (vti gld pstg orcl : StockStr) :
    Except PyErr (Option ℚ × Option ℚ × Option ℚ) :=
  let res : Except PyErr (Option ℚ × Option ℚ × Option ℚ) :=
    match ratioOf vti gld with
    | Except.error e => Except.error e
    | Except.ok r1 =>
      match ratioOf pstg vti with
      | Except.error e => Except.error e
      | Except.ok r2 =>
        match ratioOf orcl vti with
        | Except.error e => Except.error e
        | Except.ok r3 => Except.ok (r1, r2, r3)
  match res with
  | Except.error PyErr.valueError => Except.ok (none, none, none)
  | r => r

/-- Timezone-aware local instant: calendar day index plus hour,
minute and second within the day (microseconds are zeroed by the
code under study and are omitted). -/
structure DateTime where
  day : ℕ
  hour : ℕ
  minute : ℕ
  second : ℕ
deriving DecidableEq

/-- Total seconds since the epoch of day 0, for comparing instants. -/
def DateTime.toSeconds (d : DateTime) : ℕ :=
  ((d.day * 24 + d.hour) * 60 + d.minute) * 60 + d.second

/-- is_am from the source (lines 71-74): 0 <= now.hour < 12. -/
def is_am (now : DateTime) : Bool :=
  decide (0 ≤ now.hour) && decide (now.hour < 12)

/-- Wake-time computation of the finally block (lines 195-201):
morning and evening candidates are now.replace at the target hours
with minute, second and microsecond zero, on the same calendar day;
the result is the morning candidate, overwritten by the evening
candidate when is_am holds. The source never advances the day. -/
def wake_time_code (now : DateTime) : DateTime :=
  let morning_waketime : DateTime := { now with hour := MORNING_HOUR, minute := 0, second := 0 }
  let evening_waketime : DateTime := { now with hour := EVENING_HOUR, minute := 0, second := 0 }
  if is_am now then evening_waketime else morning_waketime

/-- Shutdown decision (line 207): now.hour equals MORNING_HOUR or
EVENING_HOUR. -/
def should_shutdown (hour : ℕ) : Bool :=
  decide (hour = MORNING_HOUR) || decide (hour = EVENING_HOUR)

/-- Outcome of transmitting the RTC alarm over the loopback socket. -/
inductive RtcResult where
  | ok
  | failed
deriving DecidableEq

/-- Externally visible actions of the finally block. graceWait models
a time.sleep placed between the shutdown decision and the power-off
call; the source contains no such action. -/
inductive Act where
  | epdSleep
  | rtcSet (wake : DateTime)
  | rtcResponse (r : RtcResult)
  | graceWait (n : ℕ)
  | powerOff
  | logOnly
deriving DecidableEq

/-- Predicate selecting grace-wait actions. -/
def isGraceWait : Act → Bool
  | Act.graceWait _ => true
  | _ => false

/-- Action sequence of the finally block (lines 191-211): sleep the
display, transmit the computed wake time, log the transport response
(which is read but never inspected), then either invoke power-off
when now.hour is a target hour or only log a possible manual boot. -/
def finallyBlock (now : DateTime) (rtc : RtcResult) : List Act :=
  [Act.epdSleep, Act.rtcSet (wake_time_code now), Act.rtcResponse rtc] ++
    (if should_shutdown now.hour then [Act.powerOff] else [Act.logOnly])

/-! Helper lemmas for the retry-loop trace. -/

/-- Attempt-event count of the retry loop is bounded by the remaining
iteration budget, for any fetch behaviour. -/
theorem retryFrom_attempts_le (g : ℕ → FetchResult) :
    ∀ n i, ((retryFrom g i n).2.countP isAttemptEv) ≤ n := by
  intro n
  induction n with
  | zero => intro i; simp [retryFrom]
  | succ n ih =>
    intro i
    cases hg : g i with
    | ok q => simp [retryFrom, hg, isAttemptEv, List.countP_cons]
    | emptyData =>
      have h := ih (i + 1)
      simp [retryFrom, hg, List.countP_cons, isAttemptEv]
      omega
    | err =>
      have h := ih (i + 1)
      simp [retryFrom, hg, List.countP_cons, isAttemptEv]
      omega

/-- When every attempt fails, the retry loop returns no value and its
trace is the all-fail trace. -/
theorem retryFrom_allFail (g : ℕ → FetchResult)
    (hfail : ∀ i q, g i ≠ FetchResult.ok q) :
    ∀ n i, retryFrom g i n = (none, allFailTrace i n) := by
  intro n
  induction n with
  | zero => intro i; rfl
  | succ n ih =>
    intro i
    cases hg : g i with
    | ok q => exact absurd hg (hfail i q)
    | emptyData => simp [retryFrom, hg, allFailTrace, ih (i + 1)]
    | err => simp [retryFrom, hg, allFailTrace, ih (i + 1)]

/-- Sleep durations of the all-fail trace from index i are the powers
of two from exponent i upward. -/
theorem sleepSecs_allFailTrace :
    ∀ n i, sleepSecs (allFailTrace i n) = (List.range n).map fun k => 2 ^ (i + k) := by
  intro n
  induction n with
  | zero => intro i; rfl
  | succ n ih =>
    intro i
    have hstep : sleepSecs (allFailTrace i (Nat.succ n)) =
        2 ^ i :: sleepSecs (allFailTrace (i + 1) n) := rfl
    have heq : ((fun k => (2 : ℕ) ^ (i + k)) ∘ Nat.succ) = fun k => 2 ^ (i + 1 + k) := by
      funext k
      simp only [Function.comp]
      congr 1
      omega
    rw [hstep, ih (i + 1), List.range_succ_eq_map, List.map_cons, List.map_map, heq]
    simp

/-- Attempt-event count of the all-fail trace equals the iteration
budget. -/
theorem countP_allFailTrace :
    ∀ n i, (allFailTrace i n).countP isAttemptEv = n := by
  intro n
  induction n with
  | zero => intro i; rfl
  | succ n ih =>
    intro i
    simp [allFailTrace, List.countP_cons, isAttemptEv, ih (i + 1)]

/-! Claim theorems. -/

/-- C1: the computed wake instant is claimed to be the smallest target
candidate strictly greater than now, rolling to the next day when
needed, so that now at 20:00 yields tomorrow 07:00. The code instead
keeps the current calendar day: at 20:00 it computes the same day at
07:00, an instant strictly in the past, and at 05:00 it computes the
same day at 19:00 although 07:00 would be the next candidate. This
contradicts the module docstring, which promises the next wakeup at
7:00 AM or 7:00 PM, whichever is next. -/
theorem C1_wake_in_past :
    wake_time_code ⟨0, 20, 0, 0⟩ = ⟨0, 7, 0, 0⟩ ∧
    DateTime.toSeconds ⟨0, 7, 0, 0⟩ < DateTime.toSeconds ⟨0, 20, 0, 0⟩ ∧
    wake_time_code ⟨0, 5, 0, 0⟩ = ⟨0, 19, 0, 0⟩ := by
  decide

/-- C2 counterexample: with cache holding GLD at 5, a cycle where VTI
is fetched live at 11 and every other symbol exhausts its retries
writes the stale cached GLD value back into the saved mapping, so the
fallback value IS written back to the cache as if fresh, contrary to
the claim. -/
theorem C2_stale_written_back :
    ("GLD", StockStr.num 5) ∈
      cache_to_save
        (quotesOf [("GLD", StockStr.num 5)] fun t => if t = "VTI" then some 11 else none)
        (btcQuoteOf [("GLD", StockStr.num 5)] none) := by
  decide

/-- C2 amended: the cache-save block writes back every quote that is
not N/A, fallback values included: a ticker whose retries exhausted
with a cached value has that same stale value re-written unchanged,
which is precisely how its entry avoids being erased; and likewise
for the BTC symbol. -/
theorem C2_fallback_rewritten_and_kept (cache : List (String × StockStr))
    (live : String → Option ℚ) (btc_price : StockStr) (t : String)
    (ht : t ∈ tickers) (hfail : live t = none)
    (hc : lookupD cache t ≠ StockStr.na) :
    (t, lookupD cache t) ∈ cache_to_save (quotesOf cache live) btc_price ∧
    (lookupD cache btc_symbol ≠ StockStr.na →
      (btc_symbol, lookupD cache btc_symbol) ∈
        cache_to_save (quotesOf cache live) (btcQuoteOf cache none)) := by
  constructor
  · refine List.mem_append_left _ ?_
    refine List.mem_filterMap.mpr ⟨t, ht, ?_⟩
    simp [quotesOf, hfail, hc]
  · intro hbc
    refine List.mem_append_right _ ?_
    simp [btcQuoteOf, hbc]

/-- C2 witness: the amended statement instantiated at a concrete
cycle, with the hypotheses discharged by evaluation. -/
theorem C2_fallback_rewritten_and_kept_witness :
    ("GLD", lookupD [("GLD", StockStr.num 5)] "GLD") ∈
      cache_to_save (quotesOf [("GLD", StockStr.num 5)] fun _ => none) StockStr.na ∧
    (lookupD [("GLD", StockStr.num 5)] btc_symbol ≠ StockStr.na →
      (btc_symbol, lookupD [("GLD", StockStr.num 5)] btc_symbol) ∈
        cache_to_save (quotesOf [("GLD", StockStr.num 5)] fun _ => none)
          (btcQuoteOf [("GLD", StockStr.num 5)] none)) :=
  C2_fallback_rewritten_and_kept [("GLD", StockStr.num 5)] (fun _ => none)
    StockStr.na "GLD" (by decide) rfl (by decide)

/-- C3 counterexample: with max_attempts 5 and every attempt failing,
the loop performs five backoff sleeps of 1, 2, 4, 8 and 16 seconds,
not the claimed four, because time.sleep sits inside the loop body
and also runs after the final attempt. -/
theorem C3_five_sleeps :
    sleepSecs (tickerRetry fun _ => FetchResult.err).2 = [1, 2, 4, 8, 16] ∧
    ¬ (sleepSecs (tickerRetry fun _ => FetchResult.err).2).length = MAX_RETRIES - 1 := by
  decide

/-- C3 amended: for every operation and budget n, the loop calls the
operation at most n times; on a run where every attempt fails it
calls it exactly n times and performs exactly n backoff sleeps with
durations 1, 2, 4, up to 2 to the power n - 1, the sleep of length
2 to the power i coming directly after attempt i, including one
after the final attempt. -/
theorem C3_retry_trace (n : ℕ) (g : ℕ → FetchResult)
    (hfail : ∀ i q, g i ≠ FetchResult.ok q) :
    (∀ f : ℕ → FetchResult, ((retryFrom f 0 n).2.countP isAttemptEv) ≤ n) ∧
    retryFrom g 0 n = (none, allFailTrace 0 n) ∧
    ((retryFrom g 0 n).2.countP isAttemptEv) = n ∧
    sleepSecs (retryFrom g 0 n).2 = (List.range n).map fun k => 2 ^ k := by
  have hall := retryFrom_allFail g hfail n 0
  refine ⟨fun f => retryFrom_attempts_le f n 0, hall, ?_, ?_⟩
  · rw [hall]
    exact countP_allFailTrace n 0
  · rw [hall]
    have h := sleepSecs_allFailTrace n 0
    simpa using h

/-- C3 witness: the amended statement instantiated at the constantly
failing fetch with the source budget of five attempts. -/
theorem C3_retry_trace_witness :
    retryFrom (fun _ => FetchResult.err) 0 5 = (none, allFailTrace 0 5) ∧
    sleepSecs (retryFrom (fun _ => FetchResult.err) 0 5).2 =
      (List.range 5).map fun k => 2 ^ k :=
  ⟨(C3_retry_trace 5 (fun _ => FetchResult.err)
      (fun _ _ h => FetchResult.noConfusion h)).2.1,
   (C3_retry_trace 5 (fun _ => FetchResult.err)
      (fun _ _ h => FetchResult.noConfusion h)).2.2.2⟩

/-- C4 counterexample: when the denominator quote parses to zero the
ratio expression raises ZeroDivisionError, which the surrounding try
(catching only ValueError) does not handle, so the whole ratio block
fails instead of yielding N/A. -/
theorem C4_zero_denominator_raises :
    ratioOf (StockStr.num 12) (StockStr.num 0) = Except.error PyErr.zeroDivision ∧
    ratiosBlock (StockStr.num 12) (StockStr.num 0) (StockStr.num 1) (StockStr.num 1) =
      Except.error PyErr.zeroDivision := by
  constructor <;> rfl

/-- C4 amended: a ratio is round of numerator over denominator to two
places when both operands carry parseable values and the denominator
is non-zero; it is N/A when either operand is absent; an unparseable
operand raises ValueError, which the block catches by setting all
three ratios to N/A; but a denominator equal to zero raises
ZeroDivisionError, which propagates out of the block, so the
computation can fail. -/
theorem C4_ratio_behavior (a b : ℚ) (s : StockStr) (hb : b ≠ 0) :
    ratioOf (StockStr.num a) (StockStr.num b) = Except.ok (some (pyRound2 (a / b))) ∧
    ratioOf StockStr.na s = Except.ok none ∧
    ratioOf s StockStr.na = Except.ok none ∧
    ratioOf (StockStr.num a) (StockStr.num 0) = Except.error PyErr.zeroDivision ∧
    ratiosBlock StockStr.bad (StockStr.num b) (StockStr.num b) (StockStr.num b) =
      Except.ok (none, none, none) := by
  refine ⟨?_, ?_, ?_, ?_, ?_⟩
  · simp [ratioOf, pyFloat, hb]
  · simp [ratioOf]
  · simp [ratioOf]
  · simp [ratioOf, pyFloat]
  · simp [ratiosBlock, ratioOf, pyFloat]

/-- C4 witness: the amended statement at the example of the spec, a
numerator of 12 over a denominator of 4, whose rounded ratio is 3. -/
theorem C4_ratio_behavior_witness :
    (4 : ℚ) ≠ 0 ∧ pyRound2 ((12 : ℚ) / 4) = 3 ∧
    ratioOf (StockStr.num 12) (StockStr.num 4) =
      Except.ok (some (pyRound2 ((12 : ℚ) / 4))) :=
  ⟨by decide, by norm_num [pyRound2, roundHalfEven],
   (C4_ratio_behavior 12 4 StockStr.na (by decide)).1⟩

/-- C5 counterexample: loading the cache when the file exists with
unparseable content raises JSONDecodeError instead of returning an
empty mapping; there is no exception handling around json.load at
module level, so the process terminates. -/
theorem C5_malformed_raises :
    loadCache FileState.malformed = Except.error PyErr.jsonDecode ∧
    ¬ loadCache FileState.malformed = Except.ok [] := by
  constructor
  · rfl
  · intro h
    exact Except.noConfusion h

/-- C5 amended: loading returns the empty mapping when the cache file
is absent and the stored mapping when it parses, but a malformed file
makes the load fail with JSONDecodeError rather than degrading to an
empty mapping. -/
theorem C5_load_behavior :
    loadCache FileState.absent = Except.ok [] ∧
    (∀ m, loadCache (FileState.valid m) = Except.ok m) ∧
    loadCache FileState.malformed = Except.error PyErr.jsonDecode :=
  ⟨rfl, fun _ => rfl, rfl⟩

/-- C6 counterexample: a cycle in which every symbol exhausts its
retries against an empty cache leaves used_fallback false, although
under the claim every quote of that cycle is a fallback quote and the
flag should be true. -/
theorem C6_no_cache_no_flag :
    usedFallbackOf [] (fun _ => none) none = false ∧ "VTI" ∈ tickers := by
  constructor <;> decide

/-- C6 amended: used_fallback is true exactly when some symbol
exhausted its retries AND the cache held a value for it, so a stale
value was actually displayed; a symbol that exhausts retries with no
cached value renders N/A without setting the flag. -/
theorem C6_flag_iff (cache : List (String × StockStr)) (live : String → Option ℚ)
    (btcLive : Option ℚ) :
    usedFallbackOf cache live btcLive = true ↔
      (∃ t ∈ tickers, live t = none ∧ lookupD cache t ≠ StockStr.na) ∨
        (btcLive = none ∧ lookupD cache btc_symbol ≠ StockStr.na) := by
  simp [usedFallbackOf, List.any_eq_true, Option.isNone_iff_eq_none]

/-- C7 counterexample: with the RTC transmission failing at hour 7,
the power-off action is still part of the run, contrary to the claim
that a scheduling transport error must block the shutdown. -/
theorem C7_shutdown_despite_rtc_failure :
    Act.powerOff ∈ finallyBlock ⟨0, 7, 0, 0⟩ RtcResult.failed := by
  decide

/-- C7 amended: the shutdown decision is independent of the RTC
transport outcome: the response is captured and logged but never
inspected, so the power-off runs exactly when now.hour equals a
target hour, whether or not transmitting the wake time succeeded. -/
theorem C7_decision_ignores_rtc (now : DateTime) (rtc rtc' : RtcResult) :
    (Act.powerOff ∈ finallyBlock now rtc ↔
      now.hour = MORNING_HOUR ∨ now.hour = EVENING_HOUR) ∧
    (Act.powerOff ∈ finallyBlock now rtc ↔ Act.powerOff ∈ finallyBlock now rtc') := by
  have key : ∀ r : RtcResult,
      (Act.powerOff ∈ finallyBlock now r ↔ should_shutdown now.hour = true) := by
    intro r
    by_cases h : should_shutdown now.hour <;> simp [finallyBlock, h]
  have hs : should_shutdown now.hour = true ↔
      now.hour = MORNING_HOUR ∨ now.hour = EVENING_HOUR := by
    simp [should_shutdown]
  exact ⟨(key rtc).trans hs, (key rtc).trans (key rtc').symm⟩

/-- C8: the claim, matching the module docstring, is that a run whose
shutdown decision is true waits a fixed grace interval before the
power-off call. In the code the power-off follows the decision
immediately: the action trace of a scheduled run at hour 7 contains
no wait of any length between the decision and the power-off. -/
theorem C8_no_grace_wait :
    finallyBlock ⟨0, 7, 0, 0⟩ RtcResult.ok =
      [Act.epdSleep, Act.rtcSet ⟨0, 19, 0, 0⟩, Act.rtcResponse RtcResult.ok,
        Act.powerOff] ∧
    ((finallyBlock ⟨0, 7, 0, 0⟩ RtcResult.ok).all fun a => !isGraceWait a) = true := by
  decide

/-- C9: the shutdown decision returns true exactly when the current
hour equals one of the configured target hours 7 and 19; in
particular it is false at hour 14. -/
theorem C9_shutdown_iff_target_hour (hour : ℕ) :
    should_shutdown hour = true ↔ hour = MORNING_HOUR ∨ hour = EVENING_HOUR := by
  simp [should_shutdown]

/-- C10: when every ticker quote and the BTC price resolve to N/A, so
that no live value and no cached fallback exists for any symbol, the
mapping to save is empty and the save step is skipped: the durable
file keeps its previous content. -/
theorem C10_empty_save_skipped (cache : List (String × StockStr))
    (live : String → Option ℚ) (btcLive : Option ℚ) (old : FileState)
    (hT : ∀ t ∈ tickers, live t = none ∧ lookupD cache t = StockStr.na)
    (hB : btcLive = none) (hBc : lookupD cache btc_symbol = StockStr.na) :
    cache_to_save (quotesOf cache live) (btcQuoteOf cache btcLive) = [] ∧
    saveBlock old (quotesOf cache live) (btcQuoteOf cache btcLive) = old := by
  have h1 := hT "VTI" (by decide)
  have h2 := hT "GLD" (by decide)
  have h3 := hT "PSTG" (by decide)
  have h4 := hT "ORCL" (by decide)
  have hmain : cache_to_save (quotesOf cache live) (btcQuoteOf cache btcLive) = [] := by
    simp [cache_to_save, tickers, quotesOf, btcQuoteOf, hB, hBc,
      h1.1, h1.2, h2.1, h2.2, h3.1, h3.2, h4.1, h4.2]
  exact ⟨hmain, by simp [saveBlock, hmain]⟩

/-- C10 witness: the statement instantiated at an empty cache, a
cycle with no live fetches, and a durable file previously holding a
GLD entry; the file is left unchanged. -/
theorem C10_empty_save_skipped_witness :
    cache_to_save (quotesOf [] fun _ => none) (btcQuoteOf [] none) = [] ∧
    saveBlock (FileState.valid [("GLD", StockStr.num 5)])
        (quotesOf [] fun _ => none) (btcQuoteOf [] none) =
      FileState.valid [("GLD", StockStr.num 5)] :=
  C10_empty_save_skipped [] (fun _ => none) none
    (FileState.valid [("GLD", StockStr.num 5)]) (fun _ _ => ⟨rfl, rfl⟩) rfl rfl

end Stocks
